import Mathlib

/-!
# yt-liveread — verification of the concurrent message pipeline

Shallow embedding of the core of `yt_liveread` (a YouTube live-chat
text-to-speech reader) and proofs of the specified properties.

Components modelled, each from its source file:
* `Config` / `Config.validate`       — `src/yt_liveread/config.py`
* bounded channel (`pushDrop`)       — `queue.Queue(maxsize=C)` used with
  `put(timeout=0.1)` under `except queue.Full: pass`
  (`src/yt_liveread/chat_reader.py`, `ChatReader._run`)
* `format_message`                   — `ChatReader._format_message`
* speech-worker loop (`speakLoop`)   — `src/yt_liveread/tts_speaker.py`,
  `TTSSpeaker._run`
* orchestrator command loop (`cmdLoop`) — `src/yt_liveread/main.py`, `main`
-/

namespace YtLiveread

/-! ## Configuration (`config.py`) -/

/-- `Config` dataclass from `config.py`.  Numeric fields are `Int`
(Python `int`; the CLI can supply negative values, which `validate`
must reject). -/
structure Config where
  youtube_url : String
  max_message_length : Int := 200
  cookies_path : Option String := none
  voice_module : String := "espeak-ng"
  speech_rate : Int := 0
  speech_volume : Int := 100
  speech_pitch : Int := 0
  language : String := "en"
  include_username : Bool := true
  queue_max_size : Int := 50
deriving Repr, DecidableEq

/-- `Config.validate` from `config.py`: the same checks in the same
order; `Except.error` models the raised `ValueError`. -/
def Config.validate (c : Config) : Except String Unit :=
  if c.youtube_url = "" then
    Except.error "YouTube URL is required"
  else if ¬(-100 ≤ c.speech_rate ∧ c.speech_rate ≤ 100) then
    Except.error "Speech rate must be between -100 and 100"
  else if ¬(0 ≤ c.speech_volume ∧ c.speech_volume ≤ 100) then
    Except.error "Speech volume must be between 0 and 100"
  else if ¬(-100 ≤ c.speech_pitch ∧ c.speech_pitch ≤ 100) then
    Except.error "Speech pitch must be between -100 and 100"
  else if c.max_message_length < 1 then
    Except.error "Max message length must be positive"
  else if c.queue_max_size < 1 then
    Except.error "Queue max size must be positive"
  else
    Except.ok ()

/-- The validation step of `main` (`main.py`): on a `ValueError` from
`config.validate()` it prints the error and calls `sys.exit(1)` before
any worker is constructed or started.  Result: (early exit code if any,
whether the worker threads were started). -/
def mainStartup (c : Config) : Option Nat × Bool :=
  match c.validate with
  | Except.error _ => (some 1, false)
  | Except.ok _ => (none, true)

/-! ## Bounded message channel

`main` builds `queue.Queue(maxsize=config.queue_max_size)`.  The reader
thread pushes with `put(formatted, timeout=0.1)` and catches
`queue.Full`.  With no intervening pops a full queue stays full for the
whole timeout, so the put delivers the item exactly when the queue is
below capacity and otherwise drops it (drop-newest). -/

/-- One producer push on the bounded channel: deliver when below
capacity `C`, otherwise leave the buffer unchanged and report
non-delivery (`false`). -/
def pushDrop (C : Nat) (q : List String) (x : String) : List String × Bool :=
  if q.length < C then (q ++ [x], true) else (q, false)

/-- A sequence of pushes with no intervening pops. -/
def pushAll (C : Nat) (q : List String) : List String → List String
  | [] => q
  | x :: xs => pushAll C (pushDrop C q x).1 xs

theorem pushAll_eq (C : Nat) (q : List String) (xs : List String)
    (h : q.length ≤ C) :
    pushAll C q xs = q ++ xs.take (C - q.length) := by
  induction xs generalizing q with
  | nil => simp [pushAll]
  | cons x xs ih =>
    by_cases hq : q.length < C
    · have hstep : pushDrop C q x = (q ++ [x], true) := by
        simp [pushDrop, hq]
      have hlen : (q ++ [x]).length ≤ C := by
        simp [List.length_append]; omega
      have : C - q.length = (C - (q.length + 1)) + 1 := by omega
      simp [pushAll, hstep, ih _ hlen, List.length_append, this, List.take_succ_cons]
    · have hfull : q.length = C := by omega
      have hstep : pushDrop C q x = (q, false) := by
        simp [pushDrop, hq]
      simp [pushAll, hstep, ih _ h, hfull]

/-! ## Claims C1 and C2 -/

/-- C1.  For every sequence of N pushes to the bounded channel with
capacity C and no intervening pops, the channel afterwards holds exactly
the first min(N, C) pushed items in their original relative order (so
its length is min N C); at every point along the sequence the channel
length is at most C; and a push when the channel is full discards the
new item and leaves the buffered items untouched. -/
theorem bounded_channel_drop_newest (C : Nat) (xs : List String) :
    pushAll C [] xs = xs.take C ∧
    (pushAll C [] xs).length = min xs.length C ∧
    (∀ n : Nat, (pushAll C [] (xs.take n)).length ≤ C) ∧
    (∀ q : List String, ∀ x : String, q.length = C → pushDrop C q x = (q, false)) := by
  refine ⟨?_, ?_, ?_, ?_⟩
  · simpa using pushAll_eq C [] xs (by simp)
  · have h := pushAll_eq C [] xs (by simp)
    simp [h, List.length_take, Nat.min_comm]
  · intro n
    have h := pushAll_eq C [] (xs.take n) (by simp)
    simp [h, List.length_take]
  · intro q x hq
    simp [pushDrop, hq]

/-- Witness for `bounded_channel_drop_newest` at C = 2,
xs = ["a", "b", "c"], full queue ["a", "b"]. -/
theorem bounded_channel_drop_newest_witness :
    pushAll 2 [] ["a", "b", "c"] = ["a", "b"] ∧
    pushDrop 2 ["a", "b"] "c" = (["a", "b"], false) := by
  have h := bounded_channel_drop_newest 2 ["a", "b", "c"]
  exact ⟨by rw [h.1]; rfl, h.2.2.2 ["a", "b"] "c" (by rfl)⟩

/-! ## Message normalization (`ChatReader._format_message`) -/

/-- A chat message as seen by `_format_message`: `message.get("message_type")`,
`message.get("author", {}).get("name", "Unknown")` (`none` models an absent
author name), `message.get("message", "")`. -/
structure Message where
  message_type : String
  author_name : Option String
  message : String
deriving Repr, DecidableEq

/-- Python `\S` (non-whitespace), restricted to the ASCII whitespace set
`' '`, `\t`, `\n`, `\r`, `\x0b`, `\x0c`; all inputs in the spec are ASCII. -/
def pyNonSpace (c : Char) : Bool :=
  !(c = ' ' || c = '\t' || c = '\n' || c = '\r' || c = '\x0b' || c = '\x0c')

/-- `re.sub(r"http\S+", "[link]", text)` on the character list: scan left
to right; at a position where the text starts with `http` followed by at
least one non-space character, replace `http` and the maximal run of
non-space characters after it by `[link]` and resume after the run;
otherwise advance one character.  The fuel argument only forces
structural recursion; every recursive call shortens the list, so fuel
equal to the list length (as used by `subUrls`) never runs out. -/
def subUrlsAux : Nat → List Char → List Char
  | 0, l => l
  | _ + 1, [] => []
  | fuel + 1, c :: cs =>
    if (c :: cs).take 4 = ['h', 't', 't', 'p'] ∧
        ((c :: cs).drop 4).takeWhile pyNonSpace ≠ [] then
      '[' :: 'l' :: 'i' :: 'n' :: 'k' :: ']' ::
        subUrlsAux fuel (((c :: cs).drop 4).dropWhile pyNonSpace)
    else
      c :: subUrlsAux fuel cs

/-- `re.sub(r"http\S+", "[link]", text)` on a character list. -/
def subUrls (l : List Char) : List Char := subUrlsAux l.length l

/-- `re.sub(r"http\S+", "[link]", text)` on strings. -/
def subUrlsStr (s : String) : String := ⟨subUrls s.data⟩

/-- The truncation step `text[:max] + "..."` guarded by
`len(text) > max`.  For `maxLen ≥ 0` this is exactly Python slicing
(negative `maxLen` is rejected by `Config.validate` before any message
is processed). -/
def pyTruncate (maxLen : Int) (s : String) : String :=
  if (s.length : Int) > maxLen then ⟨s.data.take maxLen.toNat⟩ ++ "..." else s

/-- `ChatReader._format_message`: drop non-text kinds; default the
author to "Unknown"; drop empty bodies; truncate; redact URLs;
optionally prefix the author. -/
def format_message (cfg : Config) (m : Message) : Option String :=
  if m.message_type ≠ "text_message" then none
  else
    let author := m.author_name.getD "Unknown"
    if m.message = "" then none
    else
      let text := pyTruncate cfg.max_message_length m.message
      let text := subUrlsStr text
      if cfg.include_username then some (author ++ " says: " ++ text)
      else some text

/-- One iteration of the reader loop body for a message already pulled
from the stream (`ChatReader._run`, lines 121–134): format, and push
when formatting produced an item; a full queue drops the item and the
loop proceeds to the next message. -/
def readerStep (cfg : Config) (q : List String) (m : Message) : List String :=
  match format_message cfg m with
  | none => q
  | some s => (pushDrop cfg.queue_max_size.toNat q s).1

/-- The reader loop over a finite list of incoming messages (shutdown
not requested, stream ends after the list). -/
def readerRun (cfg : Config) (q : List String) : List Message → List String
  | [] => q
  | m :: ms => readerRun cfg (readerStep cfg q m) ms

/-- On a text-kind message with a non-empty body, `_format_message`
reaches the formatting branch: truncate, redact URLs, and prefix the
author exactly when `include_username` is set. -/
theorem format_message_text_eq (cfg : Config) (m : Message)
    (htype : m.message_type = "text_message") (hne : m.message ≠ "") :
    format_message cfg m =
      if cfg.include_username then
        some (m.author_name.getD "Unknown" ++ " says: " ++
          subUrlsStr (pyTruncate cfg.max_message_length m.message))
      else some (subUrlsStr (pyTruncate cfg.max_message_length m.message)) := by
  simp [format_message, htype, hne]

/-- The configuration of the end-to-end scenario: capacity 50,
username-inclusion on (both are the defaults). -/
def exCfg : Config := { youtube_url := "https://www.youtube.com/watch?v=x" }

/-- Scenario message "A: hi". -/
def exMsgA : Message :=
  { message_type := "text_message", author_name := some "A", message := "hi" }

/-- Scenario message "B: <url> check this". -/
def exMsgB : Message :=
  { message_type := "text_message", author_name := some "B",
    message := "http://x.y/z check this" }

/-- Scenario message "C: " (empty body). -/
def exMsgC : Message :=
  { message_type := "text_message", author_name := some "C", message := "" }

/-- A non-text message that carries text content. -/
def exMsgSys : Message :=
  { message_type := "system_event", author_name := some "S",
    message := "stream started" }

/-! ## Claims C2, C3, C4, C10 -/

/-- C2.  A push onto a channel at capacity leaves the buffer unchanged
and reports non-delivery; no error escapes (the model is a total
function), and the ingestion loop continues with the next message.  The
0.1 s bounded wait before `queue.Full` fires is abstracted away: the
model's push is a plain function application. -/
theorem push_when_full_drops_silently (cfg : Config) (q : List String)
    (x : String) (m : Message) (ms : List Message)
    (hfull : cfg.queue_max_size.toNat ≤ q.length) :
    pushDrop cfg.queue_max_size.toNat q x = (q, false) ∧
    readerRun cfg q (m :: ms) = readerRun cfg (readerStep cfg q m) ms := by
  constructor
  · simp [pushDrop]
    omega
  · rfl

/-- Witness for `push_when_full_drops_silently` at capacity 1 with one
buffered item. -/
theorem push_when_full_drops_silently_witness :
    pushDrop ({ exCfg with queue_max_size := 1 } : Config).queue_max_size.toNat
        ["a"] "b" = (["a"], false) ∧
    readerRun { exCfg with queue_max_size := 1 } ["a"] [exMsgA] =
      readerRun { exCfg with queue_max_size := 1 }
        (readerStep { exCfg with queue_max_size := 1 } ["a"] exMsgA) [] :=
  push_when_full_drops_silently { exCfg with queue_max_size := 1 } ["a"] "b"
    exMsgA [] (by decide)

/-- C3.  Normalization yields an item exactly for text-kind messages
with a non-empty body; on those, with username-inclusion on, the item is
the author (defaulted to "Unknown"), " says: ", and the truncated,
URL-redacted body.  The end-to-end scenario
["A: hi", "B: http://x.y/z check this", "C: "] with capacity 50 queues
exactly ["A says: hi", "B says: [link] check this"], and a system-event
message with text content yields no item. -/
theorem normalization_items (cfg : Config) (m : Message) :
    ((format_message cfg m).isSome = true ↔
      (m.message_type = "text_message" ∧ m.message ≠ "")) ∧
    (m.message_type = "text_message" → m.message ≠ "" →
      cfg.include_username = true →
      format_message cfg m = some (m.author_name.getD "Unknown" ++ " says: " ++
        subUrlsStr (pyTruncate cfg.max_message_length m.message))) ∧
    readerRun exCfg [] [exMsgA, exMsgB, exMsgC] =
      ["A says: hi", "B says: [link] check this"] ∧
    format_message exCfg exMsgSys = none := by
  refine ⟨?_, ?_, by decide, by decide⟩
  · by_cases htype : m.message_type = "text_message"
    · by_cases hne : m.message = ""
      · simp [format_message, htype, hne]
      · rw [format_message_text_eq cfg m htype hne]
        cases hc : cfg.include_username <;> simp [hc, htype, hne]
    · simp [format_message, htype]
  · intro htype hne hincl
    rw [format_message_text_eq cfg m htype hne, hincl]
    simp

/-- Witness for `normalization_items` at the scenario message B. -/
theorem normalization_items_witness :
    format_message exCfg exMsgB =
      some (exMsgB.author_name.getD "Unknown" ++ " says: " ++
        subUrlsStr (pyTruncate exCfg.max_message_length exMsgB.message)) :=
  (normalization_items exCfg exMsgB).2.1 rfl (by decide) rfl

/-- C4.  With a validated maximum length (≥ 1): a body strictly longer
than `max_message_length` is truncated to exactly its first
`max_message_length` characters followed by "..." (so the result has
`max_message_length + 3` characters); a body of length at most
`max_message_length` is returned unchanged. -/
theorem truncation_exact (cfg : Config) (s : String)
    (hmax : 1 ≤ cfg.max_message_length) :
    ((s.length : Int) > cfg.max_message_length →
      pyTruncate cfg.max_message_length s =
        (⟨s.data.take cfg.max_message_length.toNat⟩ : String) ++ "..." ∧
      ((pyTruncate cfg.max_message_length s).length : Int) =
        cfg.max_message_length + 3) ∧
    ((s.length : Int) ≤ cfg.max_message_length →
      pyTruncate cfg.max_message_length s = s) := by
  constructor
  · intro hlong
    have heq : pyTruncate cfg.max_message_length s =
        (⟨s.data.take cfg.max_message_length.toNat⟩ : String) ++ "..." := by
      unfold pyTruncate
      rw [if_pos hlong]
    refine ⟨heq, ?_⟩
    have hdata : s.data.length = s.length := rfl
    have hL : ((⟨s.data.take cfg.max_message_length.toNat⟩ : String) ++ "...").length =
        (s.data.take cfg.max_message_length.toNat).length + 3 := by
      rw [String.length_append]
      rfl
    have hmin : (s.data.take cfg.max_message_length.toNat).length =
        cfg.max_message_length.toNat := by
      rw [List.length_take]
      apply Nat.min_eq_left
      omega
    rw [heq, hL, hmin]
    omega
  · intro hshort
    unfold pyTruncate
    rw [if_neg (by omega)]

/-- Witness for `truncation_exact` with max length 5 on an 11-character
body and on a short body. -/
theorem truncation_exact_witness :
    pyTruncate ({ exCfg with max_message_length := 5 } : Config).max_message_length
        "hello world" =
      (⟨("hello world").data.take 5⟩ : String) ++ "..." ∧
    pyTruncate ({ exCfg with max_message_length := 5 } : Config).max_message_length
        "hey" = "hey" :=
  ⟨((truncation_exact { exCfg with max_message_length := 5 } "hello world"
      (by decide)).1 (by decide)).1,
   (truncation_exact { exCfg with max_message_length := 5 } "hey"
      (by decide)).2 (by decide)⟩

/-- C10.  A text-kind message with a non-empty body whose author name is
absent is not dropped: with username-inclusion on it becomes
"Unknown says: " followed by the normalized body. -/
theorem missing_author_falls_back_to_unknown (cfg : Config) (m : Message)
    (htype : m.message_type = "text_message") (hne : m.message ≠ "")
    (hauthor : m.author_name = none) (hincl : cfg.include_username = true) :
    format_message cfg m = some ("Unknown says: " ++
      subUrlsStr (pyTruncate cfg.max_message_length m.message)) ∧
    (format_message cfg m).isSome = true := by
  have h := format_message_text_eq cfg m htype hne
  rw [hincl] at h
  simp only [hauthor, Option.getD_none, if_true] at h
  exact ⟨by rw [h]; rfl, by rw [h]; rfl⟩

/-- Witness for `missing_author_falls_back_to_unknown` on a message with
no author name. -/
theorem missing_author_falls_back_to_unknown_witness :
    format_message exCfg
        { message_type := "text_message", author_name := none, message := "yo" } =
      some ("Unknown says: " ++
        subUrlsStr (pyTruncate exCfg.max_message_length "yo")) ∧
    (format_message exCfg
        { message_type := "text_message", author_name := none, message := "yo" }).isSome
      = true :=
  missing_author_falls_back_to_unknown exCfg
    { message_type := "text_message", author_name := none, message := "yo" }
    rfl (by decide) rfl rfl

/-! ## Claim C8 -/

/-- C8.  `Config.validate` succeeds exactly when the target URL is
non-empty, rate and pitch lie in -100..100, volume lies in 0..100, and
the message-length and queue-capacity limits are at least 1; when it
fails, `main` exits with code 1 before any worker is started, and when
it succeeds the workers are started with no early exit. -/
theorem validate_accepts_iff (c : Config) :
    (c.validate = Except.ok () ↔
      (c.youtube_url ≠ "" ∧
       -100 ≤ c.speech_rate ∧ c.speech_rate ≤ 100 ∧
       0 ≤ c.speech_volume ∧ c.speech_volume ≤ 100 ∧
       -100 ≤ c.speech_pitch ∧ c.speech_pitch ≤ 100 ∧
       1 ≤ c.max_message_length ∧ 1 ≤ c.queue_max_size)) ∧
    (c.validate ≠ Except.ok () → mainStartup c = (some 1, false)) ∧
    (c.validate = Except.ok () → mainStartup c = (none, true)) := by
  refine ⟨?_, ?_, ?_⟩
  · unfold Config.validate
    split_ifs with h1 h2 h3 h4 h5 h6 <;> simp_all
  · intro hne
    unfold mainStartup
    cases hv : c.validate with
    | error e => rfl
    | ok u => cases u; exact absurd hv hne
  · intro hok
    unfold mainStartup
    rw [hok]

/-- Witness for `validate_accepts_iff`: a rate of 150 is rejected with
exit code 1 and no worker started; the scenario configuration passes and
starts the workers. -/
theorem validate_accepts_iff_witness :
    mainStartup { exCfg with speech_rate := 150 } = (some 1, false) ∧
    mainStartup exCfg = (none, true) :=
  ⟨(validate_accepts_iff { exCfg with speech_rate := 150 }).2.1
      (fun h => Except.noConfusion h),
   (validate_accepts_iff exCfg).2.2 rfl⟩

/-! ## Orchestrator command loop (`main`, lines 194–233)

The loop runs `while not shutdown_event.is_set()`, reads a line,
normalizes it with `.strip().lower()`, and dispatches: `p` toggles the
pause event, `q` sets shutdown and breaks, blank lines and unknown
commands continue.  `EOFError` breaks the loop; the surrounding
`except Exception` sets shutdown; the SIGINT handler sets shutdown
asynchronously.  The `finally` block then joins both workers. -/

/-- Python `str.strip()` over the ASCII whitespace set. -/
def pyStrip (s : String) : String :=
  ⟨((s.data.dropWhile (fun c => !pyNonSpace c)).reverse.dropWhile
      (fun c => !pyNonSpace c)).reverse⟩

/-- Python `str.lower()` (ASCII). -/
def pyLower (s : String) : String := ⟨s.data.map Char.toLower⟩

/-- One stdin interaction as seen by the command loop: a read line, end
of input (`EOFError`), an operator interrupt (the SIGINT handler sets
shutdown and the loop resumes), or an internal fault (caught by
`except Exception`, which sets shutdown). -/
inductive Inp
  | line (s : String)
  | eof
  | interrupt
  | fault
deriving Repr, DecidableEq

/-- Orchestrator-owned signals: the pause event (`true` = set =
running) and the shutdown event. -/
structure OrchSt where
  pause : Bool
  shutdown : Bool
deriving Repr, DecidableEq

/-- State after `pause_event.set()` and before the loop: unpaused, not
shut down. -/
def initOrch : OrchSt := { pause := true, shutdown := false }

/-- How the command loop ended: `q`, `EOFError`, internal fault,
loop condition observed shutdown (e.g. after SIGINT), or the modelled
input script ran out while the loop was still blocked reading. -/
inductive ExitKind
  | quitCmd
  | eofEnd
  | faulted
  | sawShutdown
  | scriptEnd
deriving Repr, DecidableEq

/-- The command loop of `main` over a finite input script, returning
the signal state at the moment the `finally` block starts joining the
workers, together with how the loop ended. -/
def cmdLoop (st : OrchSt) : List Inp → OrchSt × ExitKind
  | [] => if st.shutdown then (st, ExitKind.sawShutdown) else (st, ExitKind.scriptEnd)
  | i :: rest =>
    if st.shutdown then (st, ExitKind.sawShutdown)
    else
      match i with
      | Inp.eof => (st, ExitKind.eofEnd)
      | Inp.interrupt => cmdLoop { st with shutdown := true } rest
      | Inp.fault => ({ st with shutdown := true }, ExitKind.faulted)
      | Inp.line s =>
        let c := pyLower (pyStrip s)
        if c = "p" then cmdLoop { st with pause := !st.pause } rest
        else if c = "q" then ({ st with shutdown := true }, ExitKind.quitCmd)
        else cmdLoop st rest

/-! ## Claim C5 -/

/-- C5 counterexample.  End-of-input on stdin (`EOFError`) exits the
command loop, yet the shutdown signal is still clear when the
orchestrator proceeds to join the workers: the `except EOFError: break`
path never calls `shutdown_event.set()`. -/
theorem eof_exit_leaves_shutdown_clear :
    (cmdLoop initOrch [Inp.eof]).2 = ExitKind.eofEnd ∧
    (cmdLoop initOrch [Inp.eof]).1.shutdown = false := by
  decide

/-- C5 amended.  On exit from the command loop by the `q` command, by an
internal fault, or by the loop condition observing shutdown (the path an
external interrupt takes), the shutdown signal is set before the
orchestrator joins the workers; the end-of-input exit is the exception
and leaves shutdown clear. -/
theorem loop_exit_sets_shutdown (script : List Inp) (st : OrchSt)
    (h : (cmdLoop st script).2 = ExitKind.quitCmd ∨
         (cmdLoop st script).2 = ExitKind.faulted ∨
         (cmdLoop st script).2 = ExitKind.sawShutdown) :
    (cmdLoop st script).1.shutdown = true := by
  induction script generalizing st with
  | nil =>
    by_cases hsd : st.shutdown
    · simp [cmdLoop, hsd]
    · simp [cmdLoop, hsd] at h
  | cons i rest ih =>
    by_cases hsd : st.shutdown
    · simp [cmdLoop, hsd]
    · cases i with
      | eof => simp [cmdLoop, hsd] at h
      | interrupt =>
        simp only [cmdLoop, hsd, Bool.false_eq_true, if_false] at h ⊢
        exact ih _ h
      | fault => simp [cmdLoop, hsd]
      | line s =>
        by_cases hp : pyLower (pyStrip s) = "p"
        · simp only [cmdLoop, hsd, Bool.false_eq_true, if_false, hp, if_true] at h ⊢
          exact ih _ h
        · by_cases hq : pyLower (pyStrip s) = "q"
          · simp [cmdLoop, hsd, hp, hq]
          · simp only [cmdLoop, hsd, Bool.false_eq_true, if_false, hp, hq] at h ⊢
            exact ih _ h

/-- Witness for `loop_exit_sets_shutdown`: an operator typing " Q "
exits via the quit command with shutdown set. -/
theorem loop_exit_sets_shutdown_witness :
    (cmdLoop initOrch [Inp.line " Q "]).1.shutdown = true :=
  loop_exit_sets_shutdown [Inp.line " Q "] initOrch (Or.inl (by decide))

/-! ## Speech worker (`TTSSpeaker._run`)

The loop is driven by three observations of the shared state, modelled
as oracles indexed by a global observation counter: the value of the
shutdown event at each check, the result of each `pause_event.wait(0.5)`
(`true` = the event is set = resumed), and the result of each
`message_queue.get(timeout=0.5)` (`none` = `queue.Empty`). -/

/-- Oracle for the speech worker's observations of the shared state at
each observation index. -/
structure SpkOracle where
  shutdown : Nat → Bool
  pauseWait : Nat → Bool
  pop : Nat → Option String

/-- Observable loop events: a pop that timed out empty, a dequeued item,
an item sent to the speech device, and a dequeued item dropped at the
pause gate because shutdown was observed. -/
inductive SpkEv
  | popEmpty
  | popped (s : String)
  | spoke (s : String)
  | droppedItem (s : String)
deriving Repr, DecidableEq

/-- The pause gate (lines 79–88): `while not pause_event.wait(0.5):
if shutdown_event.is_set(): break`, then one final shutdown check.
Returns the next observation index and the value of that final check
(`true` means the outer loop breaks and the held item is dropped);
`none` only when the fuel bound is exhausted. -/
def pauseGate (o : SpkOracle) : Nat → Nat → Option (Nat × Bool)
  | 0, _ => none
  | fuel + 1, t =>
    if o.pauseWait t then
      some (t + 2, o.shutdown (t + 1))
    else if o.shutdown (t + 1) then
      some (t + 3, o.shutdown (t + 2))
    else
      pauseGate o fuel (t + 2)

/-- The speak loop (lines 73–99) as the list of events it produces:
`while not shutdown: get; pause gate; print/speak`, with `queue.Empty`
looping again and a positive final gate check breaking the outer loop
with the item dropped (its `finally: task_done()` runs either way). -/
def speakLoop (o : SpkOracle) : Nat → Nat → List SpkEv
  | 0, _ => []
  | fuel + 1, t =>
    if o.shutdown t then []
    else
      match o.pop (t + 1) with
      | none => SpkEv.popEmpty :: speakLoop o fuel (t + 2)
      | some s =>
        match pauseGate o (fuel + 1) (t + 2) with
        | none => [SpkEv.popped s]
        | some (t2, exitNow) =>
          if exitNow then [SpkEv.popped s, SpkEv.droppedItem s]
          else SpkEv.popped s :: SpkEv.spoke s :: speakLoop o fuel t2

/-- The items dequeued from the channel in a run. -/
def poppedItems (tr : List SpkEv) : List String :=
  tr.filterMap fun e =>
    match e with
    | SpkEv.popped s => some s
    | _ => none

/-- The items sent to the speech device in a run. -/
def spokenItems (tr : List SpkEv) : List String :=
  tr.filterMap fun e =>
    match e with
    | SpkEv.spoke s => some s
    | _ => none

/-- Whole-thread events of `TTSSpeaker._run`: the consumer-ready signal,
a speak-loop event, and the final cleanup on loop exit. -/
inductive RunEv
  | readySet
  | loopEv (e : SpkEv)
  | stopped
deriving Repr, DecidableEq

/-- `TTSSpeaker._run`: if `_setup_client()` fails, set the ready event
and return without entering the speak loop; otherwise set the ready
event, run the speak loop, and clean up (`cancel`/`close`) on exit. -/
def ttsRun (setupOk : Bool) (o : SpkOracle) (fuel : Nat) : List RunEv :=
  if setupOk then
    RunEv.readySet :: (speakLoop o fuel 0).map RunEv.loopEv ++ [RunEv.stopped]
  else
    [RunEv.readySet]

/-- An execution where the worker dequeues "hello" at observation 1,
pause stays active (every wait times out), and shutdown is set from
observation 3 on. -/
def exOracle : SpkOracle where
  shutdown := fun t => decide (3 ≤ t)
  pauseWait := fun _ => false
  pop := fun t => if t = 1 then some "hello" else none

/-! ## Claims C6, C7, C9 -/

/-- C6 counterexample.  An item can be lost after being dequeued: in the
`exOracle` run the worker pops "hello", then observes shutdown at the
pause gate and exits without ever sending the item to the speech device. -/
theorem dequeued_item_dropped_not_spoken :
    poppedItems (speakLoop exOracle 10 0) = ["hello"] ∧
    spokenItems (speakLoop exOracle 10 0) = [] ∧
    speakLoop exOracle 10 0 =
      [SpkEv.popped "hello", SpkEv.droppedItem "hello"] := by
  decide

/-- C6 amended.  An item the Speech Worker pops is sent to the speech
device unless shutdown is observed at the pause gate before speaking, in
which case the dequeued item is dropped; in a run where shutdown is
never set and pause is inactive, every popped item is spoken. -/
theorem popped_items_spoken_without_shutdown (o : SpkOracle) (fuel t : Nat)
    (hsd : ∀ u, o.shutdown u = false) (hpw : ∀ u, o.pauseWait u = true) :
    spokenItems (speakLoop o fuel t) = poppedItems (speakLoop o fuel t) := by
  induction fuel generalizing t with
  | zero => rfl
  | succ fuel ih =>
    simp only [speakLoop, hsd t, Bool.false_eq_true, if_false]
    cases hp : o.pop (t + 1) with
    | none =>
      simp only [spokenItems, poppedItems, List.filterMap_cons] at ih ⊢
      exact ih (t + 2)
    | some s =>
      have hgate : pauseGate o (fuel + 1) (t + 2) =
          some (t + 4, o.shutdown (t + 3)) := by
        simp [pauseGate, hpw (t + 2)]
      rw [hgate, hsd (t + 3)]
      simp only [Bool.false_eq_true, if_false]
      simp only [spokenItems, poppedItems, List.filterMap_cons] at ih ⊢
      rw [ih (t + 4)]

/-- Witness for `popped_items_spoken_without_shutdown` on an oracle that
never shuts down, never pauses and pops "hi" at observation 1. -/
theorem popped_items_spoken_without_shutdown_witness :
    spokenItems (speakLoop
      { shutdown := fun _ => false, pauseWait := fun _ => true,
        pop := fun t => if t = 1 then some "hi" else none } 5 0) =
    poppedItems (speakLoop
      { shutdown := fun _ => false, pauseWait := fun _ => true,
        pop := fun t => if t = 1 then some "hi" else none } 5 0) :=
  popped_items_spoken_without_shutdown
    { shutdown := fun _ => false, pauseWait := fun _ => true,
      pop := fun t => if t = 1 then some "hi" else none } 5 0
    (fun _ => rfl) (fun _ => rfl)

/-- C7.  If shutdown is set while the worker holds a dequeued item at
the pause gate (shutdown observed true from the first in-gate check on),
the gate exits after at most the one in-flight bounded wait, the held
item is dropped without being sent to the speech device, no further item
is popped or spoken, and the worker proceeds to its stopped state. -/
theorem shutdown_at_pause_gate_drops_and_stops (o : SpkOracle) (fuel : Nat)
    (s : String) (h0 : o.shutdown 0 = false) (hpop : o.pop 1 = some s)
    (hsd : ∀ u, 3 ≤ u → o.shutdown u = true) :
    ttsRun true o (fuel + 1) =
      [RunEv.readySet, RunEv.loopEv (SpkEv.popped s),
       RunEv.loopEv (SpkEv.droppedItem s), RunEv.stopped] := by
  have h3 : o.shutdown 3 = true := hsd 3 (by omega)
  have h4 : o.shutdown 4 = true := hsd 4 (by omega)
  cases hw : o.pauseWait 2 with
  | false => simp [ttsRun, speakLoop, h0, hpop, pauseGate, hw, h3, h4]
  | true => simp [ttsRun, speakLoop, h0, hpop, pauseGate, hw, h3]

/-- Witness for `shutdown_at_pause_gate_drops_and_stops` on `exOracle`. -/
theorem shutdown_at_pause_gate_drops_and_stops_witness :
    ttsRun true exOracle 6 =
      [RunEv.readySet, RunEv.loopEv (SpkEv.popped "hello"),
       RunEv.loopEv (SpkEv.droppedItem "hello"), RunEv.stopped] :=
  shutdown_at_pause_gate_drops_and_stops exOracle 5 "hello" rfl rfl
    (fun _ hu => decide_eq_true hu)

/-- C9.  When `_setup_client()` fails, the worker still sets the
consumer-ready signal and terminates without entering the speak loop: it
performs no pop and sends nothing to the speech device.  When setup
succeeds, the ready signal is likewise set before the first speak-loop
event. -/
theorem setup_failure_still_sets_ready (o : SpkOracle) (fuel : Nat) :
    ttsRun false o fuel = [RunEv.readySet] ∧
    (∀ e : SpkEv, RunEv.loopEv e ∉ ttsRun false o fuel) ∧
    (ttsRun true o fuel).head? = some RunEv.readySet := by
  refine ⟨rfl, ?_, rfl⟩
  intro e he
  simp [ttsRun] at he

end YtLiveread
